import Mathlib

/-
Shallow embedding of the wms-inventory-management service (Python/FastAPI).

Source files embedded:
  app/models.py                      : Product, Location, Stock rows
  app/repository/stock_repository.py : get_stock, create_stock, update_stock_quantity
  app/repository/product_repository.py : get_by_id, get_by_sku, create_product
  app/repository/location_repository.py : get_by_id, exists, create_location
  app/routers/stock.py               : add_stock (POST /inbound), remove_stock (POST /outbound)
  app/routers/products.py            : create_product_endpoint
  app/routers/locations.py           : create_location_endpoint
  app/services/notification.py       : send_low_stock_alert
  app/utils.py                       : create_error_response

The relational store is modelled as lists of rows; SQLAlchemy's
`query(...).filter(...).first()` is `List.find?`, in-place mutation of the row
object returned by `.first()` is replacement of the first matching list entry,
`db.add` + `db.commit` is appending the new row.  `datetime.utcnow()` is a
logical clock `DB.now : Nat`.  Quantities and ids are `Int` as in Python.
-/

deriving instance DecidableEq for Except

namespace WMS

/-- Python's str.strip(): remove leading and trailing whitespace characters.
Written structurally on the character list so it evaluates by kernel
reduction. -/
def strip (s : String) : String :=
  ⟨((s.data.dropWhile Char.isWhitespace).reverse.dropWhile
      Char.isWhitespace).reverse⟩

/-- A row of the `stock` table (models.Stock): composite key
(product_id, location_id), an integer quantity and an update timestamp. -/
structure Stock where
  product_id : Int
  location_id : Int
  quantity : Int
  updated_at : Nat
deriving DecidableEq

/-- A row of the `products` table (models.Product); timestamps are omitted,
no embedded claim mentions them. -/
structure Product where
  id : Int
  sku : String
  name : String
  category : String
  description : Option String
deriving DecidableEq

/-- A row of the `locations` table (models.Location). -/
structure Location where
  id : Int
  aisle : String
  bin : String
deriving DecidableEq

/-- The relational store: the three tables plus a logical clock standing for
`datetime.utcnow()` at the time of the current request. -/
structure DB where
  products : List Product
  locations : List Location
  stocks : List Stock
  now : Nat
deriving DecidableEq

/-- Replace the first element satisfying `p` by its image under `f`; this is
how an in-place SQLAlchemy mutation of the object returned by
`query(...).first()` acts on the list of rows. -/
def updateFirst (p : α → Bool) (f : α → α) : List α → List α
  | [] => []
  | x :: xs => if p x then f x :: xs else x :: updateFirst p f xs

namespace product_repository

/-- product_repository.get_by_id: first product row with the given id. -/
def get_by_id (db : DB) (product_id : Int) : Option Product :=
  db.products.find? (fun p => p.id == product_id)

/-- product_repository.get_by_sku: first product row whose stored sku equals
the given string. -/
def get_by_sku (db : DB) (sku : String) : Option Product :=
  db.products.find? (fun p => p.sku == sku)

/-- product_repository.create_product: append a new row built from the
request data as given (no trimming here); the store assigns the id. -/
def create_product (db : DB) (sku name category : String)
    (description : Option String) : Product × DB :=
  let p : Product := { id := Int.ofNat db.products.length + 1, sku := sku,
                       name := name, category := category,
                       description := description }
  (p, { db with products := db.products ++ [p] })

end product_repository

namespace location_repository

/-- location_repository.get_by_id: first location row with the given id. -/
def get_by_id (db : DB) (location_id : Int) : Option Location :=
  db.locations.find? (fun l => l.id == location_id)

/-- location_repository.exists: is there a row with this exact (aisle, bin)
pair? -/
def rowExists (db : DB) (aisle bin_code : String) : Bool :=
  (db.locations.find? (fun l => l.aisle == aisle && l.bin == bin_code)).isSome

/-- location_repository.create_location: append a new row built from the
request data as given (no trimming here). -/
def create_location (db : DB) (aisle bin_code : String) : Location × DB :=
  let l : Location := { id := Int.ofNat db.locations.length + 1,
                        aisle := aisle, bin := bin_code }
  (l, { db with locations := db.locations ++ [l] })

end location_repository

/-- The filter of stock_repository.get_stock: does row `t` have this
(product_id, location_id) key? -/
def stockKey (product_id location_id : Int) (t : Stock) : Bool :=
  t.product_id == product_id && t.location_id == location_id

namespace stock_repository

/-- stock_repository.get_stock: first stock row for (product_id, location_id). -/
def get_stock (db : DB) (product_id location_id : Int) : Option Stock :=
  db.stocks.find? (stockKey product_id location_id)

/-- stock_repository.update_stock_quantity: `stock.quantity += quantity_change;
stock.updated_at = datetime.utcnow(); db.commit()`.  The mutated object is the
row `get_stock` returned, i.e. the first row with its key. -/
def update_stock_quantity (db : DB) (stock : Stock) (quantity_change : Int) :
    Stock × DB :=
  let s' : Stock := { stock with
    quantity := stock.quantity + quantity_change
    updated_at := db.now }
  let stocks' :=
    updateFirst (stockKey stock.product_id stock.location_id)
      (fun _ => s') db.stocks
  (s', { db with stocks := stocks' })

/-- stock_repository.create_stock: append a new stock row with the supplied
quantity; `updated_at` defaults to utcnow. -/
def create_stock (db : DB) (product_id location_id quantity : Int) :
    Stock × DB :=
  let s : Stock := { product_id := product_id, location_id := location_id,
                     quantity := quantity, updated_at := db.now }
  (s, { db with stocks := db.stocks ++ [s] })

end stock_repository

/-- Request body of POST /inbound and POST /outbound (schemas.StockOperation). -/
structure StockOperation where
  product_id : Int
  location_id : Int
  quantity : Int
deriving DecidableEq

/-- The error kinds the two stock endpoints return, in the spec's names:
InvalidQuantity (400), ProductNotFound (404), LocationNotFound (404),
StockNotFound (404), InsufficientStock (400). -/
inductive StockError
  | invalidQuantity
  | productNotFound
  | locationNotFound
  | stockNotFound
  | insufficientStock
deriving DecidableEq

/-- Observable outcome of one adjustment call: the HTTP-level result (error
kind or the returned Stock row), the store afterwards, and the list of
arguments `send_low_stock_alert` was called with (in order). -/
structure AdjustOutcome where
  result : Except StockError Stock
  db : DB
  notified : List Stock

/-- routers/stock.py add_stock (POST /inbound), transcribed line by line:
reject non-positive quantity, then Product lookup, then Location lookup, then
increment the existing Stock row or create one, then alert if the resulting
quantity is below 20. -/
def add_stock (operation : StockOperation) (db : DB) : AdjustOutcome :=
  if operation.quantity ≤ 0 then
    { result := .error .invalidQuantity, db := db, notified := [] }
  else
    match product_repository.get_by_id db operation.product_id with
    | none => { result := .error .productNotFound, db := db, notified := [] }
    | some _ =>
      match location_repository.get_by_id db operation.location_id with
      | none => { result := .error .locationNotFound, db := db, notified := [] }
      | some _ =>
        let res :=
          match stock_repository.get_stock db operation.product_id
              operation.location_id with
          | some stock =>
            stock_repository.update_stock_quantity db stock operation.quantity
          | none =>
            stock_repository.create_stock db operation.product_id
              operation.location_id operation.quantity
        { result := .ok res.1, db := res.2,
          notified := if res.1.quantity < (20 : Int) then [res.1] else [] }

/-- routers/stock.py remove_stock (POST /outbound), transcribed line by line:
reject non-positive quantity, then Stock-row lookup (no Product or Location
lookup on this path), then the sufficiency check, then decrement, then alert
if the resulting quantity is below 20. -/
def remove_stock (operation : StockOperation) (db : DB) : AdjustOutcome :=
  if operation.quantity ≤ 0 then
    { result := .error .invalidQuantity, db := db, notified := [] }
  else
    match stock_repository.get_stock db operation.product_id
        operation.location_id with
    | none => { result := .error .stockNotFound, db := db, notified := [] }
    | some stock =>
      if stock.quantity < operation.quantity then
        { result := .error .insufficientStock, db := db, notified := [] }
      else
        let res :=
          stock_repository.update_stock_quantity db stock (-operation.quantity)
        { result := .ok res.1, db := res.2,
          notified := if res.1.quantity < (20 : Int) then [res.1] else [] }

/-- The uniform error envelope built by utils.create_error_response.  The
`id` field of the Python envelope is a fresh UUID, i.e. an opaque
nondeterministic correlation id; it is omitted here, the claims do not
constrain its value. -/
structure ErrorEnvelope where
  criticality : String
  detail : String
  recoverySuggestion : Option String
deriving DecidableEq

/-- utils.create_error_response (without the generated UUID id). -/
def create_error_response (detail : String) (criticality : String)
    (recovery_suggestion : Option String) : ErrorEnvelope :=
  { criticality := criticality, detail := detail,
    recoverySuggestion := recovery_suggestion }

/-- Request body of POST /products (schemas.ProductCreate). -/
structure ProductCreate where
  sku : String
  name : String
  category : String
  description : Option String
deriving DecidableEq

/-- Request body of POST /locations (schemas.LocationCreate). -/
structure LocationCreate where
  aisle : String
  bin : String
deriving DecidableEq

/-- routers/products.py create_product_endpoint: trim sku and name, reject an
empty trimmed sku (400), reject a duplicate of the trimmed sku (409), reject
an empty trimmed name (400), otherwise persist `product.dict()` — the
original, untrimmed field values.  Result is (status, envelope) on failure or
the created row on success, paired with the store afterwards. -/
def create_product_endpoint (product : ProductCreate) (db : DB) :
    Except (Nat × ErrorEnvelope) Product × DB :=
  let sku := strip product.sku
  let name := strip product.name
  if sku.data.isEmpty then
    (.error (400, create_error_response "SKU cannot be empty" "critical"
      (some "Please provide a valid SKU identifier for the product")), db)
  else if (product_repository.get_by_sku db sku).isSome then
    (.error (409, create_error_response "Product with this SKU already exists"
      "critical"
      (some "Use a different SKU or update the existing product")), db)
  else if name.data.isEmpty then
    (.error (400, create_error_response "Product name cannot be empty"
      "critical" (some "Please provide a name for the product")), db)
  else
    let res := product_repository.create_product db product.sku product.name
      product.category product.description
    (.ok res.1, res.2)

/-- routers/locations.py create_location_endpoint: trim aisle and bin, reject
an empty trimmed aisle (400), reject an empty trimmed bin (400), reject an
existing (trimmed aisle, trimmed bin) pair (400), otherwise persist
`location.dict()` — the original, untrimmed field values. -/
def create_location_endpoint (location : LocationCreate) (db : DB) :
    Except (Nat × ErrorEnvelope) Location × DB :=
  let aisle := strip location.aisle
  let bin_code := strip location.bin
  if aisle.data.isEmpty then
    (.error (400, create_error_response "Aisle identifier cannot be empty"
      "critical" (some "Please provide a valid aisle identifier")), db)
  else if bin_code.data.isEmpty then
    (.error (400, create_error_response "Bin identifier cannot be empty"
      "critical" (some "Please provide a valid bin identifier")), db)
  else if location_repository.rowExists db aisle bin_code then
    (.error (400, create_error_response "Location already exists" "critical"
      (some "Choose a different aisle/bin combination or update the existing location")),
     db)
  else
    let res := location_repository.create_location db location.aisle
      location.bin
    (.ok res.1, res.2)

/-- Python exceptions that the body of send_low_stock_alert can raise; all of
them are subclasses of Exception.  httpError is requests.exceptions.HTTPError
as raised by response.raise_for_status(); the others (connection errors,
timeouts, JSON decode failures) are only caught by the generic
`except Exception` clause. -/
inductive PyExc
  | httpError
  | connectionError
  | jsonDecodeError
deriving DecidableEq

/-- What the environment does when services/notification.py performs
`requests.post(url, ...)` followed by raise_for_status and response.json():
either a response arrives (with or without a 2xx status, with or without a
parseable JSON body) or the post itself raises. -/
inductive PostOutcome
  | response (is2xx : Bool) (jsonParses : Bool)
  | raised (e : PyExc)
deriving DecidableEq

/-- The external world seen by send_low_stock_alert: the value of the
NOTIFICATION_SERVICE_URL environment variable (absent, or a string that may be
empty — both falsy in `if not url`) and the delivery outcome. -/
structure NotifyEnv where
  url : Option String
  post : PostOutcome
deriving DecidableEq

/-- The benign values send_low_stock_alert returns to its caller: None when no
URL is configured, the parsed response JSON on success, or the fixed
error dict built in the two except clauses. -/
inductive NotifyResult
  | skipped
  | delivered
  | errorValue
deriving DecidableEq

/-- The `try` block of send_low_stock_alert in an explicit exception monad:
requests.post may raise; raise_for_status raises HTTPError on a non-2xx
status; response.json() raises a decode error on an unparseable body. -/
def notifyTryBody (env : NotifyEnv) : Except PyExc NotifyResult :=
  match env.post with
  | .raised e => .error e
  | .response is2xx jsonParses =>
    if !is2xx then .error .httpError
    else if !jsonParses then .error .jsonDecodeError
    else .ok .delivered

/-- services/notification.py send_low_stock_alert: no-op if the URL is unset
or empty; otherwise run the try block, catching HTTPError in the first
except clause and every other Exception in the second, both returning the
benign error dict.  An `Except.error` result would be an exception escaping
to the caller. -/
def send_low_stock_alert (env : NotifyEnv) : Except PyExc NotifyResult :=
  match env.url with
  | none => .ok .skipped
  | some u =>
    if u.isEmpty then .ok .skipped
    else
      match notifyTryBody env with
      | .ok r => .ok r
      | .error .httpError => .ok .errorValue
      | .error .connectionError => .ok .errorValue
      | .error .jsonDecodeError => .ok .errorValue

/-- add_stock as executed by the router including the notification call: any
exception escaping send_low_stock_alert would propagate and fail the request
(after the store commit).  Transcribes lines 59-61 of routers/stock.py. -/
def add_stock_with_notify (operation : StockOperation) (db : DB)
    (env : NotifyEnv) : Except PyExc AdjustOutcome :=
  let o := add_stock operation db
  match o.result with
  | .error _ => .ok o
  | .ok stock =>
    if stock.quantity < 20 then
      match send_low_stock_alert env with
      | .error e => .error e
      | .ok _ => .ok o
    else .ok o

/-- remove_stock as executed by the router including the notification call
(lines 97-98 of routers/stock.py). -/
def remove_stock_with_notify (operation : StockOperation) (db : DB)
    (env : NotifyEnv) : Except PyExc AdjustOutcome :=
  let o := remove_stock operation db
  match o.result with
  | .error _ => .ok o
  | .ok stock =>
    if stock.quantity < 20 then
      match send_low_stock_alert env with
      | .error e => .error e
      | .ok _ => .ok o
    else .ok o

/-- One adjustment request against the service, for reasoning about
sequences of calls (C1). -/
inductive Op
  | inbound (operation : StockOperation)
  | outbound (operation : StockOperation)

/-- The store after one adjustment request. -/
def applyOp (db : DB) : Op → DB
  | .inbound operation => (add_stock operation db).db
  | .outbound operation => (remove_stock operation db).db

/-- The store after a sequence of adjustment requests. -/
def applyOps (db : DB) : List Op → DB
  | [] => db
  | op :: ops => applyOps (applyOp db op) ops

/-- The spec's Stock invariant: every stock row has a non-negative quantity. -/
def NonNeg (db : DB) : Prop := ∀ s ∈ db.stocks, 0 ≤ s.quantity

instance (db : DB) : Decidable (NonNeg db) := by
  unfold NonNeg; infer_instance

/-! Helper lemmas about `updateFirst` and `List.find?`. -/

lemma mem_updateFirst {p : α → Bool} {f : α → α} {l : List α} {x : α}
    (hx : x ∈ updateFirst p f l) : x ∈ l ∨ ∃ y, y ∈ l ∧ p y = true ∧ x = f y := by
  induction l with
  | nil => simp [updateFirst] at hx
  | cons a l ih =>
    by_cases hp : p a
    · simp only [updateFirst, if_pos hp, List.mem_cons] at hx
      rcases hx with hx | hx
      · exact Or.inr ⟨a, List.mem_cons_self a l, hp, hx⟩
      · exact Or.inl (List.mem_cons_of_mem a hx)
    · simp only [updateFirst, if_neg hp, List.mem_cons] at hx
      rcases hx with hx | hx
      · exact Or.inl (by simp [hx])
      · rcases ih hx with h | ⟨y, hy, hpy, hxy⟩
        · exact Or.inl (List.mem_cons_of_mem a h)
        · exact Or.inr ⟨y, List.mem_cons_of_mem a hy, hpy, hxy⟩

lemma find?_updateFirst_const {p : α → Bool} {x : α} {l : List α} {y : α}
    (hl : l.find? p = some y) (hx : p x = true) :
    (updateFirst p (fun _ => x) l).find? p = some x := by
  induction l with
  | nil => simp [List.find?] at hl
  | cons a l ih =>
    by_cases hp : p a
    · simp [updateFirst, if_pos hp, List.find?_cons_of_pos _ hx]
    · rw [List.find?_cons_of_neg _ hp] at hl
      simp only [updateFirst, if_neg hp]
      rw [List.find?_cons_of_neg _ hp]
      exact ih hl

lemma find?_append_none {p : α → Bool} {l₁ l₂ : List α}
    (h : l₁.find? p = none) : (l₁ ++ l₂).find? p = l₂.find? p := by
  rw [List.find?_append, h]; rfl

/-! Branch normal forms of the two endpoints, one lemma per control-flow
path of routers/stock.py; the claim theorems are proved from these. -/

lemma add_stock_invalid {operation : StockOperation} (db : DB)
    (hq : operation.quantity ≤ 0) :
    add_stock operation db = ⟨.error .invalidQuantity, db, []⟩ := by
  simp only [add_stock, if_pos hq]

lemma add_stock_no_product {operation : StockOperation} {db : DB}
    (hq : ¬ operation.quantity ≤ 0)
    (hp : product_repository.get_by_id db operation.product_id = none) :
    add_stock operation db = ⟨.error .productNotFound, db, []⟩ := by
  simp only [add_stock, if_neg hq, hp]

lemma add_stock_no_location {operation : StockOperation} {db : DB} {p : Product}
    (hq : ¬ operation.quantity ≤ 0)
    (hp : product_repository.get_by_id db operation.product_id = some p)
    (hl : location_repository.get_by_id db operation.location_id = none) :
    add_stock operation db = ⟨.error .locationNotFound, db, []⟩ := by
  simp only [add_stock, if_neg hq, hp, hl]

lemma add_stock_update {operation : StockOperation} {db : DB} {p : Product}
    {loc : Location} {stock : Stock}
    (hq : ¬ operation.quantity ≤ 0)
    (hp : product_repository.get_by_id db operation.product_id = some p)
    (hl : location_repository.get_by_id db operation.location_id = some loc)
    (hs : stock_repository.get_stock db operation.product_id
            operation.location_id = some stock) :
    add_stock operation db =
      let s' : Stock := { stock with
        quantity := stock.quantity + operation.quantity
        updated_at := db.now }
      let stocks' := updateFirst (stockKey stock.product_id stock.location_id)
        (fun _ => s') db.stocks
      ⟨.ok s', { db with stocks := stocks' },
       if s'.quantity < 20 then [s'] else []⟩ := by
  simp only [add_stock, if_neg hq, hp, hl, hs,
    stock_repository.update_stock_quantity]

lemma add_stock_create {operation : StockOperation} {db : DB} {p : Product}
    {loc : Location}
    (hq : ¬ operation.quantity ≤ 0)
    (hp : product_repository.get_by_id db operation.product_id = some p)
    (hl : location_repository.get_by_id db operation.location_id = some loc)
    (hs : stock_repository.get_stock db operation.product_id
            operation.location_id = none) :
    add_stock operation db =
      let s : Stock := { product_id := operation.product_id,
                         location_id := operation.location_id,
                         quantity := operation.quantity, updated_at := db.now }
      ⟨.ok s, { db with stocks := db.stocks ++ [s] },
       if s.quantity < 20 then [s] else []⟩ := by
  simp only [add_stock, if_neg hq, hp, hl, hs, stock_repository.create_stock]

lemma remove_stock_invalid {operation : StockOperation} (db : DB)
    (hq : operation.quantity ≤ 0) :
    remove_stock operation db = ⟨.error .invalidQuantity, db, []⟩ := by
  simp only [remove_stock, if_pos hq]

lemma remove_stock_no_stock {operation : StockOperation} {db : DB}
    (hq : ¬ operation.quantity ≤ 0)
    (hs : stock_repository.get_stock db operation.product_id
            operation.location_id = none) :
    remove_stock operation db = ⟨.error .stockNotFound, db, []⟩ := by
  simp only [remove_stock, if_neg hq, hs]

lemma remove_stock_insufficient {operation : StockOperation} {db : DB}
    {stock : Stock}
    (hq : ¬ operation.quantity ≤ 0)
    (hs : stock_repository.get_stock db operation.product_id
            operation.location_id = some stock)
    (hlt : stock.quantity < operation.quantity) :
    remove_stock operation db = ⟨.error .insufficientStock, db, []⟩ := by
  simp only [remove_stock, if_neg hq, hs, if_pos hlt]

lemma remove_stock_ok {operation : StockOperation} {db : DB} {stock : Stock}
    (hq : ¬ operation.quantity ≤ 0)
    (hs : stock_repository.get_stock db operation.product_id
            operation.location_id = some stock)
    (hge : ¬ stock.quantity < operation.quantity) :
    remove_stock operation db =
      let s' : Stock := { stock with
        quantity := stock.quantity + -operation.quantity
        updated_at := db.now }
      let stocks' := updateFirst (stockKey stock.product_id stock.location_id)
        (fun _ => s') db.stocks
      ⟨.ok s', { db with stocks := stocks' },
       if s'.quantity < 20 then [s'] else []⟩ := by
  simp only [remove_stock, if_neg hq, hs, if_neg hge,
    stock_repository.update_stock_quantity]

/-- One inbound call preserves non-negativity of every stock quantity. -/
lemma nonNeg_add_stock (operation : StockOperation) {db : DB} (h : NonNeg db) :
    NonNeg (add_stock operation db).db := by
  by_cases hq : operation.quantity ≤ 0
  · rw [add_stock_invalid db hq]; exact h
  · cases hp : product_repository.get_by_id db operation.product_id with
    | none => rw [add_stock_no_product hq hp]; exact h
    | some p =>
      cases hl : location_repository.get_by_id db operation.location_id with
      | none => rw [add_stock_no_location hq hp hl]; exact h
      | some loc =>
        cases hs : stock_repository.get_stock db operation.product_id
            operation.location_id with
        | none =>
          simp only [add_stock_create hq hp hl hs]
          intro s hsmem
          simp only [List.mem_append, List.mem_singleton] at hsmem
          rcases hsmem with hmem | rfl
          · exact h s hmem
          · show 0 ≤ operation.quantity
            omega
        | some stock =>
          simp only [add_stock_update hq hp hl hs]
          intro s hsmem
          rcases mem_updateFirst hsmem with hmem | ⟨y, _, _, rfl⟩
          · exact h s hmem
          · have hstock : stock ∈ db.stocks :=
              List.mem_of_find?_eq_some hs
            have h0 := h stock hstock
            show 0 ≤ stock.quantity + operation.quantity
            omega

/-- One outbound call preserves non-negativity of every stock quantity. -/
lemma nonNeg_remove_stock (operation : StockOperation) {db : DB}
    (h : NonNeg db) : NonNeg (remove_stock operation db).db := by
  by_cases hq : operation.quantity ≤ 0
  · rw [remove_stock_invalid db hq]; exact h
  · cases hs : stock_repository.get_stock db operation.product_id
        operation.location_id with
    | none => rw [remove_stock_no_stock hq hs]; exact h
    | some stock =>
      by_cases hlt : stock.quantity < operation.quantity
      · rw [remove_stock_insufficient hq hs hlt]; exact h
      · simp only [remove_stock_ok hq hs hlt]
        intro s hsmem
        rcases mem_updateFirst hsmem with hmem | ⟨y, _, _, rfl⟩
        · exact h s hmem
        · show 0 ≤ stock.quantity + -operation.quantity
          omega

lemma nonNeg_applyOp (op : Op) {db : DB} (h : NonNeg db) :
    NonNeg (applyOp db op) := by
  cases op with
  | inbound operation => exact nonNeg_add_stock operation h
  | outbound operation => exact nonNeg_remove_stock operation h

/-- C1: For every reachable Stock row and every sequence of inbound/outbound
adjustments, the row's quantity is never negative: starting from any store
whose stock quantities are all non-negative, after any sequence of inbound
and outbound calls every stock row still has quantity >= 0 (inbound rejects
quantity <= 0, and an outbound whose quantity exceeds the current quantity is
rejected with no change to the row). -/
theorem stock_quantity_never_negative (db : DB) (h : NonNeg db)
    (ops : List Op) : NonNeg (applyOps db ops) := by
  induction ops generalizing db with
  | nil => exact h
  | cons op ops ih => exact ih _ (nonNeg_applyOp op h)

/-- A store with one product, one location and an empty stock table, with
the logical clock at 7. -/
def dbW : DB :=
  ⟨[⟨1, "S1", "P1", "c", none⟩], [⟨1, "A", "B"⟩], [], 7⟩

/-- Witness for C1 at a concrete store and operation sequence. -/
theorem stock_quantity_never_negative_witness :
    NonNeg (applyOps dbW
      [.inbound ⟨1, 1, 10⟩, .outbound ⟨1, 1, 4⟩, .outbound ⟨1, 1, 9⟩]) :=
  stock_quantity_never_negative dbW (by decide)
    [.inbound ⟨1, 1, 10⟩, .outbound ⟨1, 1, 4⟩, .outbound ⟨1, 1, 9⟩]

/-- C2: An outbound adjustment on an existing Stock row with current
quantity n and requested quantity q > 0 fails with InsufficientStock and
leaves the whole store (hence the row's quantity and updated_at) exactly as
before when n < q, and succeeds with resulting quantity n - q when q <= n. -/
theorem outbound_insufficient_atomic (db : DB) (operation : StockOperation)
    (stock : Stock) (hq : 0 < operation.quantity)
    (hs : stock_repository.get_stock db operation.product_id
            operation.location_id = some stock) :
    (stock.quantity < operation.quantity →
      remove_stock operation db = ⟨.error .insufficientStock, db, []⟩)
    ∧ (operation.quantity ≤ stock.quantity →
      ∃ s', (remove_stock operation db).result = .ok s'
        ∧ s'.quantity = stock.quantity - operation.quantity) := by
  have hq' : ¬ operation.quantity ≤ 0 := not_le.mpr hq
  constructor
  · intro hlt
    exact remove_stock_insufficient hq' hs hlt
  · intro hge
    have hlt' : ¬ stock.quantity < operation.quantity := not_lt.mpr hge
    simp only [remove_stock_ok hq' hs hlt']
    refine ⟨_, rfl, ?_⟩
    show stock.quantity + -operation.quantity
      = stock.quantity - operation.quantity
    omega

/-- The store of spec Scenario D: Stock{1,1,5} exists. -/
def dbW5 : DB := ⟨[⟨1, "S1", "P1", "c", none⟩], [⟨1, "A", "B"⟩], [⟨1, 1, 5, 0⟩], 7⟩

/-- Witness for C2: Scenario D, AdjustOutbound(1,1,10) against Stock{1,1,5}
fails with InsufficientStock and the store is unchanged. -/
theorem outbound_insufficient_atomic_witness :
    remove_stock ⟨1, 1, 10⟩ dbW5 = ⟨.error .insufficientStock, dbW5, []⟩ :=
  (outbound_insufficient_atomic dbW5 ⟨1, 1, 10⟩ ⟨1, 1, 5, 0⟩ (by decide)
    (by decide)).1 (by decide)

/-- C3: For every successful inbound or outbound adjustment, the low-stock
notification is invoked exactly once if and only if the post-adjustment
quantity is strictly below the fixed threshold 20 (once when below, never
when 20 or more), with no de-duplication: the decision depends only on the
resulting quantity of this call. -/
theorem low_stock_notification_iff (operation : StockOperation) (db : DB)
    (s' : Stock) :
    ((add_stock operation db).result = .ok s' →
      (add_stock operation db).notified
        = if s'.quantity < 20 then [s'] else [])
    ∧ ((remove_stock operation db).result = .ok s' →
      (remove_stock operation db).notified
        = if s'.quantity < 20 then [s'] else []) := by
  constructor
  · intro hres
    by_cases hq : operation.quantity ≤ 0
    · rw [add_stock_invalid db hq] at hres; exact absurd hres (by simp)
    · cases hp : product_repository.get_by_id db operation.product_id with
      | none =>
        rw [add_stock_no_product hq hp] at hres; exact absurd hres (by simp)
      | some p =>
        cases hl : location_repository.get_by_id db operation.location_id with
        | none =>
          rw [add_stock_no_location hq hp hl] at hres
          exact absurd hres (by simp)
        | some loc =>
          cases hs : stock_repository.get_stock db operation.product_id
              operation.location_id with
          | none =>
            simp only [add_stock_create hq hp hl hs] at hres ⊢
            simp only [Except.ok.injEq] at hres
            subst hres; rfl
          | some stock =>
            simp only [add_stock_update hq hp hl hs] at hres ⊢
            simp only [Except.ok.injEq] at hres
            subst hres; rfl
  · intro hres
    by_cases hq : operation.quantity ≤ 0
    · rw [remove_stock_invalid db hq] at hres; exact absurd hres (by simp)
    · cases hs : stock_repository.get_stock db operation.product_id
          operation.location_id with
      | none =>
        rw [remove_stock_no_stock hq hs] at hres; exact absurd hres (by simp)
      | some stock =>
        by_cases hlt : stock.quantity < operation.quantity
        · rw [remove_stock_insufficient hq hs hlt] at hres
          exact absurd hres (by simp)
        · simp only [remove_stock_ok hq hs hlt] at hres ⊢
          simp only [Except.ok.injEq] at hres
          subst hres; rfl

/-- Witness for C3: Scenario A, inbound of 10 into an empty store notifies
exactly once (10 < 20). -/
theorem low_stock_notification_iff_witness :
    (add_stock ⟨1, 1, 10⟩ dbW).notified
      = if (⟨1, 1, 10, 7⟩ : Stock).quantity < 20 then [⟨1, 1, 10, 7⟩] else [] :=
  (low_stock_notification_iff ⟨1, 1, 10⟩ dbW ⟨1, 1, 10, 7⟩).1 (by decide)

/-- C6: Any inbound or outbound request with quantity <= 0 fails with
InvalidQuantity, leaves the store untouched, performs no notification, and —
including the notification call — never raises: the combined call returns
the error outcome for every notification environment and every store. -/
theorem invalid_quantity_no_mutation (operation : StockOperation) (db : DB)
    (env : NotifyEnv) (hq : operation.quantity ≤ 0) :
    add_stock operation db = ⟨.error .invalidQuantity, db, []⟩
    ∧ remove_stock operation db = ⟨.error .invalidQuantity, db, []⟩
    ∧ add_stock_with_notify operation db env
        = .ok ⟨.error .invalidQuantity, db, []⟩
    ∧ remove_stock_with_notify operation db env
        = .ok ⟨.error .invalidQuantity, db, []⟩ := by
  refine ⟨add_stock_invalid db hq, remove_stock_invalid db hq, ?_, ?_⟩
  · unfold add_stock_with_notify
    simp only [add_stock_invalid db hq]
  · unfold remove_stock_with_notify
    simp only [remove_stock_invalid db hq]

/-- Witness for C6: Scenario F, inbound with quantity 0 is rejected with no
mutation and no notification. -/
theorem invalid_quantity_no_mutation_witness :
    add_stock ⟨1, 1, 0⟩ dbW = ⟨.error .invalidQuantity, dbW, []⟩
    ∧ remove_stock ⟨1, 1, 0⟩ dbW = ⟨.error .invalidQuantity, dbW, []⟩
    ∧ add_stock_with_notify ⟨1, 1, 0⟩ dbW ⟨none, .response true true⟩
        = .ok ⟨.error .invalidQuantity, dbW, []⟩
    ∧ remove_stock_with_notify ⟨1, 1, 0⟩ dbW ⟨none, .response true true⟩
        = .ok ⟨.error .invalidQuantity, dbW, []⟩ :=
  invalid_quantity_no_mutation ⟨1, 1, 0⟩ dbW ⟨none, .response true true⟩
    (by decide)

/-- C4: A valid inbound adjustment (quantity q > 0, existing product and
location) increments an existing Stock row for the pair to n + q and stamps
updated_at with the current clock, and creates a fresh row holding exactly q
when no row for the pair exists; in both cases the row found for the pair
afterwards is the returned one. -/
theorem inbound_upsert (db : DB) (operation : StockOperation)
    (hq : 0 < operation.quantity)
    (hp : (product_repository.get_by_id db operation.product_id).isSome = true)
    (hl : (location_repository.get_by_id db operation.location_id).isSome = true) :
    (∀ stock, stock_repository.get_stock db operation.product_id
        operation.location_id = some stock →
      ∃ s', (add_stock operation db).result = .ok s'
        ∧ s'.quantity = stock.quantity + operation.quantity
        ∧ s'.updated_at = db.now
        ∧ stock_repository.get_stock (add_stock operation db).db
            operation.product_id operation.location_id = some s')
    ∧ (stock_repository.get_stock db operation.product_id
        operation.location_id = none →
      ∃ s', (add_stock operation db).result = .ok s'
        ∧ s'.quantity = operation.quantity
        ∧ s'.updated_at = db.now
        ∧ s'.product_id = operation.product_id
        ∧ s'.location_id = operation.location_id
        ∧ (add_stock operation db).db.stocks = db.stocks ++ [s']
        ∧ stock_repository.get_stock (add_stock operation db).db
            operation.product_id operation.location_id = some s') := by
  have hq' : ¬ operation.quantity ≤ 0 := not_le.mpr hq
  obtain ⟨p, hp'⟩ := Option.isSome_iff_exists.mp hp
  obtain ⟨loc, hl'⟩ := Option.isSome_iff_exists.mp hl
  constructor
  · intro stock hs
    have hsf : db.stocks.find?
        (stockKey operation.product_id operation.location_id) = some stock := hs
    have hk : stock.product_id = operation.product_id
        ∧ stock.location_id = operation.location_id := by
      have hkey := List.find?_some hsf
      simpa [stockKey, Bool.and_eq_true, beq_iff_eq] using hkey
    obtain ⟨hk1, hk2⟩ := hk
    simp only [add_stock_update hq' hp' hl' hs, stock_repository.get_stock]
    refine ⟨_, rfl, rfl, rfl, ?_⟩
    rw [hk1, hk2]
    exact find?_updateFirst_const hsf (by simp [stockKey])
  · intro hs
    have hsf : db.stocks.find?
        (stockKey operation.product_id operation.location_id) = none := hs
    simp only [add_stock_create hq' hp' hl' hs, stock_repository.get_stock]
    refine ⟨_, rfl, rfl, rfl, rfl, rfl, rfl, ?_⟩
    rw [find?_append_none hsf]
    simp [List.find?, stockKey]

/-- Witness for C4 at Scenario D's store: inbound of 15 onto Stock{1,1,5}
yields the row with quantity 5 + 15 and a refreshed timestamp. -/
theorem inbound_upsert_witness :
    ∃ s', (add_stock ⟨1, 1, 15⟩ dbW5).result = .ok s'
      ∧ s'.quantity = 5 + 15
      ∧ s'.updated_at = dbW5.now
      ∧ stock_repository.get_stock (add_stock ⟨1, 1, 15⟩ dbW5).db 1 1
          = some s' :=
  (inbound_upsert dbW5 ⟨1, 1, 15⟩ (by decide) (by decide) (by decide)).1
    ⟨1, 1, 5, 0⟩ (by decide)

/-- Outbound never reads the products or locations tables: replacing them
arbitrarily changes nothing in the outcome except that the final store
carries the replaced tables. -/
lemma remove_stock_ignores_products_locations (operation : StockOperation)
    (db : DB) (ps : List Product) (ls : List Location) :
    remove_stock operation ⟨ps, ls, db.stocks, db.now⟩ =
      ⟨(remove_stock operation db).result,
       ⟨ps, ls, (remove_stock operation db).db.stocks,
        (remove_stock operation db).db.now⟩,
       (remove_stock operation db).notified⟩ := by
  by_cases hq : operation.quantity ≤ 0
  · simp only [remove_stock_invalid (⟨ps, ls, db.stocks, db.now⟩ : DB) hq,
      remove_stock_invalid db hq]
  · cases hs : stock_repository.get_stock db operation.product_id
        operation.location_id with
    | none =>
      have hs2 : stock_repository.get_stock (⟨ps, ls, db.stocks, db.now⟩ : DB)
          operation.product_id operation.location_id = none := hs
      simp only [remove_stock_no_stock hq hs2, remove_stock_no_stock hq hs]
    | some stock =>
      have hs2 : stock_repository.get_stock (⟨ps, ls, db.stocks, db.now⟩ : DB)
          operation.product_id operation.location_id = some stock := hs
      by_cases hlt : stock.quantity < operation.quantity
      · simp only [remove_stock_insufficient hq hs2 hlt,
          remove_stock_insufficient hq hs hlt]
      · simp only [remove_stock_ok hq hs2 hlt, remove_stock_ok hq hs hlt]

/-- C5: The validation order is fixed.  Inbound: a non-positive quantity is
reported as InvalidQuantity whatever the store holds; with a positive
quantity a missing product is reported as ProductNotFound whatever the
location or stock tables hold; with product present a missing location is
LocationNotFound whatever the stock table holds.  Outbound: non-positive
quantity is InvalidQuantity; with positive quantity a missing stock row is
StockNotFound and an existing but insufficient row is InsufficientStock; and
outbound never consults the products or locations tables at all. -/
theorem validation_order (db : DB) (operation : StockOperation) :
    (operation.quantity ≤ 0 →
      (add_stock operation db).result = .error .invalidQuantity
      ∧ (remove_stock operation db).result = .error .invalidQuantity)
    ∧ (0 < operation.quantity →
      product_repository.get_by_id db operation.product_id = none →
      (add_stock operation db).result = .error .productNotFound)
    ∧ (∀ p, 0 < operation.quantity →
      product_repository.get_by_id db operation.product_id = some p →
      location_repository.get_by_id db operation.location_id = none →
      (add_stock operation db).result = .error .locationNotFound)
    ∧ (0 < operation.quantity →
      stock_repository.get_stock db operation.product_id
        operation.location_id = none →
      (remove_stock operation db).result = .error .stockNotFound)
    ∧ (∀ stock, 0 < operation.quantity →
      stock_repository.get_stock db operation.product_id
        operation.location_id = some stock →
      stock.quantity < operation.quantity →
      (remove_stock operation db).result = .error .insufficientStock)
    ∧ (∀ ps ls, remove_stock operation ⟨ps, ls, db.stocks, db.now⟩ =
        ⟨(remove_stock operation db).result,
         ⟨ps, ls, (remove_stock operation db).db.stocks,
          (remove_stock operation db).db.now⟩,
         (remove_stock operation db).notified⟩) := by
  refine ⟨?_, ?_, ?_, ?_, ?_, ?_⟩
  · intro hq
    constructor
    · simp only [add_stock_invalid db hq]
    · simp only [remove_stock_invalid db hq]
  · intro hq hp
    simp only [add_stock_no_product (not_le.mpr hq) hp]
  · intro p hq hp hl
    simp only [add_stock_no_location (not_le.mpr hq) hp hl]
  · intro hq hs
    simp only [remove_stock_no_stock (not_le.mpr hq) hs]
  · intro stock hq hs hlt
    simp only [remove_stock_insufficient (not_le.mpr hq) hs hlt]
  · intro ps ls
    exact remove_stock_ignores_products_locations operation db ps ls

/-- Witness for C5: quantity 0 is reported as InvalidQuantity on both paths. -/
theorem validation_order_witness :
    (add_stock ⟨1, 1, 0⟩ dbW).result = .error .invalidQuantity
    ∧ (remove_stock ⟨1, 1, 0⟩ dbW).result = .error .invalidQuantity :=
  (validation_order dbW ⟨1, 1, 0⟩).1 (by decide)

/-- C7: Two inbound adjustments q1 then q2 on a pair with existing product
and location and no prior stock row leave the pair's quantity at q1 + q2. -/
theorem inbound_additive (db : DB) (product_id location_id q1 q2 : Int)
    (h1 : 0 < q1) (h2 : 0 < q2)
    (hp : (product_repository.get_by_id db product_id).isSome = true)
    (hl : (location_repository.get_by_id db location_id).isSome = true)
    (hs : stock_repository.get_stock db product_id location_id = none) :
    ∃ s', (add_stock ⟨product_id, location_id, q2⟩
        (add_stock ⟨product_id, location_id, q1⟩ db).db).result = .ok s'
      ∧ s'.quantity = q1 + q2 := by
  obtain ⟨p, hp'⟩ := Option.isSome_iff_exists.mp hp
  obtain ⟨loc, hl'⟩ := Option.isSome_iff_exists.mp hl
  have hq1 : ¬ (⟨product_id, location_id, q1⟩ : StockOperation).quantity ≤ 0 :=
    not_le.mpr h1
  have hq2 : ¬ (⟨product_id, location_id, q2⟩ : StockOperation).quantity ≤ 0 :=
    not_le.mpr h2
  have e1 : (add_stock ⟨product_id, location_id, q1⟩ db).db
      = { db with stocks
            := db.stocks ++ [⟨product_id, location_id, q1, db.now⟩] } := by
    simp only [add_stock_create hq1 hp' hl' hs]
  rw [e1]
  have hp2 : product_repository.get_by_id
      { db with stocks := db.stocks ++ [⟨product_id, location_id, q1, db.now⟩] }
      product_id = some p := hp'
  have hl2 : location_repository.get_by_id
      { db with stocks := db.stocks ++ [⟨product_id, location_id, q1, db.now⟩] }
      location_id = some loc := hl'
  have hsf : db.stocks.find? (stockKey product_id location_id) = none := hs
  have hs2 : stock_repository.get_stock
      { db with stocks := db.stocks ++ [⟨product_id, location_id, q1, db.now⟩] }
      product_id location_id = some ⟨product_id, location_id, q1, db.now⟩ := by
    show (db.stocks ++ [(⟨product_id, location_id, q1, db.now⟩ : Stock)]).find?
        (stockKey product_id location_id)
      = some (⟨product_id, location_id, q1, db.now⟩ : Stock)
    rw [find?_append_none hsf]
    simp [List.find?, stockKey]
  simp only [add_stock_update hq2 hp2 hl2 hs2]
  exact ⟨_, rfl, rfl⟩

/-- Witness for C7: inbound 10 then inbound 15 on a fresh pair gives 25. -/
theorem inbound_additive_witness :
    ∃ s', (add_stock ⟨1, 1, 15⟩ (add_stock ⟨1, 1, 10⟩ dbW).db).result = .ok s'
      ∧ s'.quantity = 10 + 15 :=
  inbound_additive dbW 1 1 10 15 (by decide) (by decide) (by decide)
    (by decide) (by decide)

/-- A store already holding the location ("A1", "B1"). -/
def dbLoc : DB := ⟨[], [⟨1, "A1", "B1"⟩], [], 0⟩

/-- Counterexample for C8 as stated: creating a duplicate of the existing
(aisle, bin) pair ("A1", "B1") is rejected with HTTP status 400, not 409. -/
theorem duplicate_location_status_counterexample :
    (create_location_endpoint ⟨"A1", "B1"⟩ dbLoc).1
      = .error (400, create_error_response "Location already exists" "critical"
          (some "Choose a different aisle/bin combination or update the existing location"))
    ∧ (400 : Nat) ≠ 409 :=
  ⟨by decide, by decide⟩

/-- C8 amended: a duplicate Product sku is rejected with status 409 and the
uniform error envelope, while a duplicate (aisle, bin) pair is rejected with
status 400 and the uniform error envelope; neither touches the store. -/
theorem duplicate_key_status (db : DB) (product : ProductCreate)
    (location : LocationCreate) :
    ((strip product.sku).data.isEmpty = false →
      (product_repository.get_by_sku db (strip product.sku)).isSome = true →
      (create_product_endpoint product db).1
        = .error (409, create_error_response
            "Product with this SKU already exists" "critical"
            (some "Use a different SKU or update the existing product"))
      ∧ (create_product_endpoint product db).2 = db)
    ∧ ((strip location.aisle).data.isEmpty = false →
      (strip location.bin).data.isEmpty = false →
      location_repository.rowExists db (strip location.aisle)
        (strip location.bin) = true →
      (create_location_endpoint location db).1
        = .error (400, create_error_response "Location already exists"
            "critical"
            (some "Choose a different aisle/bin combination or update the existing location"))
      ∧ (create_location_endpoint location db).2 = db) := by
  constructor
  · intro h1 h2
    simp [create_product_endpoint, create_error_response, h1, h2]
  · intro h1 h2 h3
    simp [create_location_endpoint, create_error_response, h1, h2, h3]

/-- A store already holding a product with sku "SKU2" and location
("A1", "B1"). -/
def dbSku2 : DB := ⟨[⟨1, "SKU2", "n", "c", none⟩], [⟨1, "A1", "B1"⟩], [], 0⟩

/-- Witness for the amended C8: a request whose trimmed sku collides with
the stored sku "SKU2" is rejected with 409 and the envelope, store
untouched. -/
theorem duplicate_key_status_witness :
    (create_product_endpoint ⟨" SKU2 ", "x", "c", none⟩ dbSku2).1
      = .error (409, create_error_response
          "Product with this SKU already exists" "critical"
          (some "Use a different SKU or update the existing product"))
    ∧ (create_product_endpoint ⟨" SKU2 ", "x", "c", none⟩ dbSku2).2 = dbSku2 :=
  (duplicate_key_status dbSku2 ⟨" SKU2 ", "x", "c", none⟩ ⟨"A1", "B1"⟩).1
    (by decide) (by decide)

/-- C9: send_low_stock_alert never lets an exception reach its caller: for
every environment it returns a benign value; with no configured URL it is a
no-op; and the adjustment outcome of the combined router call is exactly the
pure adjustment outcome for every notification environment — a delivery
failure neither fails nor rolls back the stock mutation. -/
theorem notification_never_raises (env : NotifyEnv)
    (operation : StockOperation) (db : DB) :
    (∃ r, send_low_stock_alert env = .ok r)
    ∧ (env.url = none → send_low_stock_alert env = .ok .skipped)
    ∧ add_stock_with_notify operation db env = .ok (add_stock operation db)
    ∧ remove_stock_with_notify operation db env
        = .ok (remove_stock operation db) := by
  have halways : ∃ r, send_low_stock_alert env = .ok r := by
    rcases env with ⟨url, post⟩
    cases url with
    | none => exact ⟨.skipped, rfl⟩
    | some u =>
      by_cases hu : u.isEmpty
      · exact ⟨.skipped, by simp [send_low_stock_alert, hu]⟩
      · cases post with
        | raised e =>
          cases e <;>
            exact ⟨.errorValue,
              by simp [send_low_stock_alert, notifyTryBody, hu]⟩
        | response is2xx jsonParses =>
          cases is2xx with
          | false =>
            exact ⟨.errorValue,
              by simp [send_low_stock_alert, notifyTryBody, hu]⟩
          | true =>
            cases jsonParses with
            | false =>
              exact ⟨.errorValue,
                by simp [send_low_stock_alert, notifyTryBody, hu]⟩
            | true =>
              exact ⟨.delivered,
                by simp [send_low_stock_alert, notifyTryBody, hu]⟩
  obtain ⟨r, hr⟩ := halways
  refine ⟨⟨r, hr⟩, ?_, ?_, ?_⟩
  · intro hnone
    unfold send_low_stock_alert
    rw [hnone]
  · simp only [add_stock_with_notify]
    cases hres : (add_stock operation db).result with
    | error e => simp only [hres]
    | ok stock =>
      simp only [hres]
      by_cases h20 : stock.quantity < 20
      · simp only [if_pos h20, hr]
      · simp only [if_neg h20]
  · simp only [remove_stock_with_notify]
    cases hres : (remove_stock operation db).result with
    | error e => simp only [hres]
    | ok stock =>
      simp only [hres]
      by_cases h20 : stock.quantity < 20
      · simp only [if_pos h20, hr]
      · simp only [if_neg h20]

/-- Witness for C9: with no configured URL the alert is a logged no-op. -/
theorem notification_never_raises_witness :
    send_low_stock_alert ⟨none, .response true true⟩ = .ok .skipped :=
  (notification_never_raises ⟨none, .response true true⟩ ⟨1, 1, 1⟩ dbW).2.1 rfl

/-- C10: Product and Location creation validate against the stripped input
but persist the original values: when the stripped sku is non-empty, misses
every stored (raw) sku, and the stripped name is non-empty, the created row
stores the raw sku and name and is appended to the table; likewise for the
(aisle, bin) pair.  The duplicate check compares the stripped request value
with raw stored values, so a request passes it whenever its stripped key
differs from every stored raw value, even if it strips to the same key as an
existing row. -/
theorem untrimmed_persistence (db : DB) (product : ProductCreate)
    (location : LocationCreate) :
    ((strip product.sku).data.isEmpty = false →
      product_repository.get_by_sku db (strip product.sku) = none →
      (strip product.name).data.isEmpty = false →
      ∃ p, (create_product_endpoint product db).1 = .ok p
        ∧ p.sku = product.sku ∧ p.name = product.name
        ∧ (create_product_endpoint product db).2.products
            = db.products ++ [p])
    ∧ ((strip location.aisle).data.isEmpty = false →
      (strip location.bin).data.isEmpty = false →
      location_repository.rowExists db (strip location.aisle)
        (strip location.bin) = false →
      ∃ l, (create_location_endpoint location db).1 = .ok l
        ∧ l.aisle = location.aisle ∧ l.bin = location.bin
        ∧ (create_location_endpoint location db).2.locations
            = db.locations ++ [l]) := by
  constructor
  · intro h1 h2 h3
    have h2' : (product_repository.get_by_sku db (strip product.sku)).isSome
        = false := by rw [h2]; rfl
    simp only [create_product_endpoint, h1, h2', h3, Bool.false_eq_true,
      if_false, product_repository.create_product]
    exact ⟨_, rfl, rfl, rfl, rfl⟩
  · intro h1 h2 h3
    simp only [create_location_endpoint, h1, h2, h3, Bool.false_eq_true,
      if_false, location_repository.create_location]
    exact ⟨_, rfl, rfl, rfl, rfl⟩

/-- A store whose only product has the whitespace-padded raw sku " SKU1 ". -/
def dbSku : DB := ⟨[⟨1, " SKU1 ", "n", "c", none⟩], [], [], 0⟩

/-- Witness for C10: the request sku " SKU1 " strips to "SKU1", which
differs from the stored raw " SKU1 ", so the duplicate check passes even
though both strip to the same key, and the row is persisted with its
whitespace intact. -/
theorem untrimmed_persistence_witness :
    ∃ p, (create_product_endpoint ⟨" SKU1 ", "x", "c", none⟩ dbSku).1 = .ok p
      ∧ p.sku = " SKU1 " ∧ p.name = "x"
      ∧ (create_product_endpoint ⟨" SKU1 ", "x", "c", none⟩ dbSku).2.products
          = dbSku.products ++ [p] :=
  (untrimmed_persistence dbSku ⟨" SKU1 ", "x", "c", none⟩ ⟨"a", "b"⟩).1
    (by decide) (by decide) (by decide)

end WMS
